import Mathlib

/-!
Shallow embedding of the mesh-to-chat bridge in
`src/python/meshtastic-client.py` (classes `MeshtasticClient` and
`MattermostClient`, and the `main` entry point).

Python dictionaries with optional keys become structures with `Option`
fields; Python exceptions become `Except` values, with one constructor of
`PyError` per exception class that can escape the code under study; the
mesh interface's node table `interface.nodes` becomes an association list.
The downstream chat-posting callback is a parameter returning `Except`,
so that a raising collaborator can be modelled.
-/

namespace Bridge

/-- Bytes of a Python `bytes` object, one `Nat` per byte. -/
abbrev Bytes := List Nat

/-- Section `packet["decoded"]` of an inbound mesh packet: the keys
`"portnum"` and `"payload"` may each be absent, which the handler probes
with `in` / plain indexing. -/
structure DecodedSection where
  portnum : Option String
  payload : Option Bytes
  deriving Repr, DecidableEq

/-- Inbound mesh packet as consumed by `MeshtasticClient._on_receive`:
the `"decoded"` section and the `"fromId"` key may be absent. -/
structure Packet where
  decoded : Option DecodedSection
  fromId : Option String
  deriving Repr, DecidableEq

/-- Value of `node_info["user"]` in the node table: display identity of a
mesh node. -/
structure User where
  shortName : String
  longName : String
  deriving Repr, DecidableEq

/-- One entry of `interface.nodes`: the `"user"` key may be absent (the
sibling helper `_get_long_name_from_id` guards for it; `_id_to_name` does
not). -/
structure NodeInfo where
  user : Option User
  deriving Repr, DecidableEq

/-- Node table `interface.nodes` of the mesh interface: an association
list from node id (the dictionary key compared against `fromId`) to node
info, in iteration order. -/
abbrev Directory := List (String × NodeInfo)

/-- Exceptions that can arise in the embedded code paths. `keyError k`
models a Python `KeyError` on dictionary key `k`; `indexError` a list
`IndexError`; `unicodeDecodeError` the error raised by
`bytes.decode("utf-8")` on invalid UTF-8; `callbackError` stands for any
other exception class raised by the downstream chat-posting callback. -/
inductive PyError where
  | keyError (key : String)
  | indexError
  | unicodeDecodeError
  | callbackError (msg : String)
  deriving Repr, DecidableEq

/-- Event handed to the dispatcher callback: the `(callsign, text)` pair
passed to `self.callback`. -/
structure RelayEvent where
  callsign : String
  text : String
  deriving Repr, DecidableEq

/-- Continuation byte test for strict UTF-8: `0x80 ≤ b ≤ 0xBF`. -/
def isCont (b : Nat) : Bool := 0x80 ≤ b && b ≤ 0xBF

/-- Strict UTF-8 decoding of a byte list, as `bytes.decode("utf-8")`
performs it: rejects stray continuation bytes, overlong encodings,
surrogate code points and values above `0x10FFFF`. The fuel argument is
instantiated with the list length, which bounds the number of decoded
characters; it exists only to make the recursion structural. -/
def utf8DecodeAux : Nat → Bytes → List Char → Option (List Char)
  | _, [], acc => some acc.reverse
  | 0, _ :: _, _ => none
  | fuel + 1, b :: rest, acc =>
    if b ≤ 0x7F then
      utf8DecodeAux fuel rest (Char.ofNat b :: acc)
    else if b ≤ 0xC1 then
      none
    else if b ≤ 0xDF then
      match rest with
      | b1 :: rest1 =>
        if isCont b1 then
          utf8DecodeAux fuel rest1
            (Char.ofNat ((b - 0xC0) * 0x40 + (b1 - 0x80)) :: acc)
        else none
      | [] => none
    else if b ≤ 0xEF then
      match rest with
      | b1 :: b2 :: rest2 =>
        if (if b = 0xE0 then decide (0xA0 ≤ b1 && b1 ≤ 0xBF)
            else if b = 0xED then decide (0x80 ≤ b1 && b1 ≤ 0x9F)
            else isCont b1) && isCont b2 then
          utf8DecodeAux fuel rest2
            (Char.ofNat ((b - 0xE0) * 0x1000 + (b1 - 0x80) * 0x40 + (b2 - 0x80)) :: acc)
        else none
      | _ => none
    else if b ≤ 0xF4 then
      match rest with
      | b1 :: b2 :: b3 :: rest3 =>
        if (if b = 0xF0 then decide (0x90 ≤ b1 && b1 ≤ 0xBF)
            else if b = 0xF4 then decide (0x80 ≤ b1 && b1 ≤ 0x8F)
            else isCont b1) && isCont b2 && isCont b3 then
          utf8DecodeAux fuel rest3
            (Char.ofNat ((b - 0xF0) * 0x40000 + (b1 - 0x80) * 0x1000
              + (b2 - 0x80) * 0x40 + (b3 - 0x80)) :: acc)
        else none
      | _ => none
    else none

/-- Result of `payload.decode("utf-8")`: `none` models a raised
`UnicodeDecodeError`, `some s` the decoded text. -/
def utf8Decode (bs : Bytes) : Option String :=
  (utf8DecodeAux bs.length bs []).map fun cs => ⟨cs⟩

/-- Whitespace predicate of Python's no-argument `str.split()`, for the
ASCII whitespace characters. -/
def pyIsSpace (c : Char) : Bool :=
  c = ' ' || c = '\t' || c = '\n' || c = '\r' || c = '\x0b' || c = '\x0c'

/-- Accumulator pass behind `pySplit`: `cur` holds the characters of the
token being built, in reverse. -/
def pySplitAux : List Char → List Char → List String
  | [], cur => if cur = [] then [] else [⟨cur.reverse⟩]
  | c :: cs, cur =>
    if pyIsSpace c then
      if cur = [] then pySplitAux cs []
      else ⟨cur.reverse⟩ :: pySplitAux cs []
    else pySplitAux cs (c :: cur)

/-- Python `s.split()`: split on runs of whitespace, discarding empty
pieces. In particular `pySplit "" = []`, so indexing the result at 0
raises `IndexError` in the source. -/
def pySplit (s : String) : List String :=
  pySplitAux s.data []

/-- Python `s.upper()` on the ASCII range: upper-case each character
(`String.map Char.toUpper`, written over the character list so that it
computes by structural recursion). -/
def pyUpper (s : String) : String :=
  ⟨s.data.map Char.toUpper⟩

/-- Embedding of `MeshtasticClient._id_to_name`: scan `interface.nodes`
for the first key equal to `id`; on a hit read `node_info["user"]`
(a `KeyError` if the key is absent) and return `(shortName, longName)`;
if no key matches, fall through to the initial `("", "")`. -/
def idToName (nodes : Directory) (id : String) :
    Except PyError (String × String) :=
  match nodes.find? fun entry => id == entry.1 with
  | some entry =>
    match entry.2.user with
    | none => .error (.keyError "user")
    | some u => .ok (u.shortName, u.longName)
  | none => .ok ("", "")

/-- Body of the `try` block of `MeshtasticClient._on_receive`, for a
packet whose decoded section `ds` carries the text-message port tag:
read `packet["decoded"]["payload"]` (`KeyError` if absent), decode it as
UTF-8 (`UnicodeDecodeError` if invalid), read `packet["fromId"]`
(`KeyError` if absent), resolve the sender via `_id_to_name`, take
`long_name.split()[0].upper()` (`IndexError` if the long name has no
token), then invoke `self.callback(callsign, text_message, logger)`. -/
def onReceiveTry (cb : String → String → Except PyError Unit)
    (ds : DecodedSection) (p : Packet) (nodes : Directory) :
    Except PyError RelayEvent :=
  match ds.payload with
  | none => .error (.keyError "payload")
  | some bs =>
    match utf8Decode bs with
    | none => .error .unicodeDecodeError
    | some text =>
      match p.fromId with
      | none => .error (.keyError "fromId")
      | some fid =>
        match idToName nodes fid with
        | .error e => .error e
        | .ok names =>
          match pySplit names.2 with
          | [] => .error .indexError
          | tok :: _ =>
            match cb (pyUpper tok) text with
            | .error e => .error e
            | .ok _ => .ok ⟨pyUpper tok, text⟩

/-- Embedding of `MeshtasticClient._on_receive`. The guard
`"decoded" in packet and "portnum" in packet["decoded"] and
packet["decoded"]["portnum"] == "TEXT_MESSAGE_APP"` short-circuits, so a
packet failing any conjunct is silently skipped. The `try` body is
wrapped by `except UnicodeDecodeError` only: that one exception is
logged and swallowed, every other exception escapes the handler.
`Except.ok (some ev)` means the handler returned normally after
dispatching `ev`; `Except.ok none` a normal return with no dispatch;
`Except.error e` an exception escaping the handler. -/
def onReceive (cb : String → String → Except PyError Unit)
    (p : Packet) (nodes : Directory) :
    Except PyError (Option RelayEvent) :=
  match p.decoded with
  | none => .ok none
  | some ds =>
    match ds.portnum with
    | none => .ok none
    | some pn =>
      if pn = "TEXT_MESSAGE_APP" then
        match onReceiveTry cb ds p nodes with
        | .ok ev => .ok (some ev)
        | .error .unicodeDecodeError => .ok none
        | .error e => .error e
      else .ok none

/-- State visible to the handler across packets: the mesh interface's
node table and the list of events dispatched so far (the only
observable effect of `_on_receive` besides logging). -/
structure BridgeState where
  nodes : Directory
  dispatched : List RelayEvent
  deriving Repr, DecidableEq

/-- Run `_on_receive` on one packet against a bridge state: the handler
reads the node table and at most appends one dispatched event; it never
writes the node table or the packet. -/
def handlePacket (cb : String → String → Except PyError Unit)
    (p : Packet) (st : BridgeState) : Except PyError BridgeState :=
  match onReceive cb p st.nodes with
  | .error e => .error e
  | .ok none => .ok st
  | .ok (some ev) => .ok ⟨st.nodes, st.dispatched ++ [ev]⟩

/-- Connection states of the spec's Connection Manager vocabulary,
used to describe the lifecycle the source actually implements. -/
inductive ConnState where
  | disconnected
  | connecting
  | connected
  | closed
  deriving Repr, DecidableEq

/-- Lifecycle events acting on the connection: `beginConnect` is the
`TCPInterface(...)` call in `MeshtasticClient.__init__`, `connectOk` /
`connectFail` its outcome, `linkLoss` a mid-stream drop of the device
link, `closeReq` the `close()` call from `main`'s `finally` block. -/
inductive MeshEvent where
  | beginConnect
  | connectOk
  | connectFail
  | linkLoss
  | closeReq
  deriving Repr, DecidableEq

/-- Connection transitions present in the source module. The constructor
performs a single blocking connect (`connectNow=True`): success
subscribes the handler, failure logs and re-raises. `close()` releases
the interface. The module subscribes only to `"meshtastic.receive"`,
registers no connection-lost handler, and contains no retry loop (`main`
just sleeps), so an event with no handler — in particular `linkLoss` —
leaves the bridge's state unchanged. -/
def meshStep : ConnState → MeshEvent → ConnState
  | .disconnected, .beginConnect => .connecting
  | .connecting, .connectOk => .connected
  | .connecting, .connectFail => .disconnected
  | _, .closeReq => .closed
  | s, _ => s

/-- Outcome of an attempt to reach an external collaborator, supplied by
the environment: the `TCPInterface` constructor or the Mattermost
`Driver` constructor either succeeds or raises with a message. -/
inductive ConnectResult where
  | ok
  | fail (msg : String)
  deriving Repr, DecidableEq

/-- Embedding of `MeshtasticClient.__init__`: on connect success the
handler is subscribed and the client is usable; on failure the error is
logged and the exception re-raised unchanged (`raise`). -/
def meshInit : ConnectResult → Except String Unit
  | .ok => .ok ()
  | .fail msg => .error msg

/-- Embedding of `MattermostClient.__init__`: constructing the `Driver`
either succeeds or the exception is logged and re-raised unchanged. -/
def mattermostInit : ConnectResult → Except String Unit
  | .ok => .ok ()
  | .fail msg => .error msg

/-- Observable outcome of one run of `main`: whether the process exits
with status zero (an exception escaping `main` exits non-zero), and
whether `close()` ran on each client. -/
structure RunOutcome where
  exitCodeZero : Bool
  meshClosed : Bool
  mmClosed : Bool
  deriving Repr, DecidableEq

/-- Embedding of `main` after config loading: construct the
`MeshtasticClient`, then the `MattermostClient`, then sleep until
`KeyboardInterrupt`, which is caught and logged; the `finally` block
calls `close()` on each client that is not `None`, i.e. on each client
whose constructor returned. A constructor exception is not caught by
`main` (only `KeyboardInterrupt` is), so it escapes and the process
exits non-zero, after the `finally` block closes the clients
constructed so far. -/
def mainRun (meshConn mmConn : ConnectResult) : RunOutcome :=
  match meshInit meshConn with
  | .error _ => ⟨false, false, false⟩
  | .ok _ =>
    match mattermostInit mmConn with
    | .error _ => ⟨false, true, false⟩
    | .ok _ => ⟨true, true, true⟩

/-- Dispatcher callback that never raises, matching `mestastic_callback`
(which only logs). -/
def okCb : String → String → Except PyError Unit := fun _ _ => .ok ()

/-- Concrete happy-path packet of the spec's scenario: text port tag,
payload the UTF-8 bytes of `"Hello"`, sender `"!abc123"`. -/
def helloBytes : Bytes := [0x48, 0x65, 0x6C, 0x6C, 0x6F]

def happyPacket : Packet :=
  ⟨some ⟨some "TEXT_MESSAGE_APP", some helloBytes⟩, some "!abc123"⟩

/-- Directory holding the happy-path sender with long name
`"Alice Example"`. -/
def aliceDir : Directory :=
  [("!abc123", ⟨some ⟨"AE", "Alice Example"⟩⟩)]

/-- Directory that does not contain the happy-path sender `"!abc123"`. -/
def bobDir : Directory :=
  [("!zzz999", ⟨some ⟨"BO", "Bob Other"⟩⟩)]

/-- Text-tagged packet whose decoded section has no `"payload"` key. -/
def noPayloadPacket : Packet :=
  ⟨some ⟨some "TEXT_MESSAGE_APP", none⟩, some "!abc123"⟩

/-- Text-tagged packet whose payload byte `0xFF` is not valid UTF-8. -/
def badUtf8Packet : Packet :=
  ⟨some ⟨some "TEXT_MESSAGE_APP", some [0xFF]⟩, some "!abc123"⟩

/-- Text-tagged packet with a valid payload but no `"fromId"` key. -/
def noFromIdPacket : Packet :=
  ⟨some ⟨some "TEXT_MESSAGE_APP", some helloBytes⟩, none⟩

/-- Position packet of the spec's non-text scenario. -/
def positionPacket : Packet :=
  ⟨some ⟨some "POSITION_APP", some helloBytes⟩, some "!abc123"⟩

end Bridge

namespace Bridge

/-- Claim C1, counterexample: the packet handler does raise for a partial
packet. The packet carries the text-message port tag but no `"payload"`
key, so `packet["decoded"]["payload"]` raises `KeyError`, which the
`except UnicodeDecodeError` clause does not catch: the handler does not
return normally with `none`. -/
theorem c1_counterexample :
    onReceive okCb noPayloadPacket aliceDir = .error (.keyError "payload") := rfl

/-- Claim C1 (corrected): the handler returns normally with no dispatch
for a packet with no decoded section, no port tag, a non-text port tag,
or an invalid-UTF-8 payload; but a text-tagged packet lacking the
`"payload"` key raises an uncaught `KeyError "payload"`, and one with a
valid payload lacking the `"fromId"` key raises an uncaught
`KeyError "fromId"`. -/
theorem c1_decode_failure_paths (cb : String → String → Except PyError Unit)
    (p : Packet) (nodes : Directory) :
    (p.decoded = none → onReceive cb p nodes = .ok none) ∧
    (∀ ds, p.decoded = some ds → ds.portnum = none →
      onReceive cb p nodes = .ok none) ∧
    (∀ ds pn, p.decoded = some ds → ds.portnum = some pn →
      pn ≠ "TEXT_MESSAGE_APP" → onReceive cb p nodes = .ok none) ∧
    (∀ ds bs, p.decoded = some ds → ds.portnum = some "TEXT_MESSAGE_APP" →
      ds.payload = some bs → utf8Decode bs = none →
      onReceive cb p nodes = .ok none) ∧
    (∀ ds, p.decoded = some ds → ds.portnum = some "TEXT_MESSAGE_APP" →
      ds.payload = none →
      onReceive cb p nodes = .error (.keyError "payload")) ∧
    (∀ ds bs text, p.decoded = some ds →
      ds.portnum = some "TEXT_MESSAGE_APP" → ds.payload = some bs →
      utf8Decode bs = some text → p.fromId = none →
      onReceive cb p nodes = .error (.keyError "fromId")) := by
  refine ⟨?_, ?_, ?_, ?_, ?_, ?_⟩
  · intro hd; simp [onReceive, hd]
  · intro ds hd hpn; simp [onReceive, hd, hpn]
  · intro ds pn hd hpn hne; simp [onReceive, hd, hpn, hne]
  · intro ds bs hd hpn hpl hutf
    simp [onReceive, onReceiveTry, hd, hpn, hpl, hutf]
  · intro ds hd hpn hpl
    simp [onReceive, onReceiveTry, hd, hpn, hpl]
  · intro ds bs text hd hpn hpl hutf hfid
    simp [onReceive, onReceiveTry, hd, hpn, hpl, hutf, hfid]

/-- Claim C1, witness for the amended theorem: the invalid-UTF-8 packet
is swallowed and the handler returns normally with no dispatch. -/
theorem c1_witness :
    onReceive okCb badUtf8Packet aliceDir = .ok none :=
  (c1_decode_failure_paths okCb badUtf8Packet aliceDir).2.2.2.1
    ⟨some "TEXT_MESSAGE_APP", some [0xFF]⟩ [0xFF] rfl rfl rfl rfl

/-- Claim C2, counterexample: an unknown sender is not forwarded with a
sentinel callsign. With the text packet's sender absent from the
directory, `_id_to_name` returns an empty long name, `"".split()[0]`
raises `IndexError`, and the uncaught exception drops the message. -/
theorem c2_counterexample :
    onReceive okCb happyPacket [] = .error .indexError := rfl

/-- Claim C2 (corrected): for every decoded text message whose sender
node id is not in the directory snapshot, identity resolution yields the
empty long name, taking its first whitespace token raises an uncaught
`IndexError`, the dispatcher callback is never invoked, and the message
is dropped. -/
theorem c2_unknown_sender_drops (cb : String → String → Except PyError Unit)
    (p : Packet) (nodes : Directory) (ds : DecodedSection) (bs : Bytes)
    (text fid : String)
    (hd : p.decoded = some ds)
    (hpn : ds.portnum = some "TEXT_MESSAGE_APP")
    (hpl : ds.payload = some bs)
    (hutf : utf8Decode bs = some text)
    (hfid : p.fromId = some fid)
    (hfind : nodes.find? (fun entry => fid == entry.1) = none) :
    onReceive cb p nodes = .error .indexError := by
  have hsplit : pySplit "" = [] := rfl
  simp [onReceive, onReceiveTry, idToName, hd, hpn, hpl, hutf, hfid, hfind,
    hsplit]

/-- Claim C2, witness for the amended theorem: the happy-path packet
against a directory lacking its sender raises `IndexError`. -/
theorem c2_witness :
    onReceive okCb happyPacket bobDir = .error .indexError :=
  c2_unknown_sender_drops okCb happyPacket bobDir
    ⟨some "TEXT_MESSAGE_APP", some helloBytes⟩ helloBytes "Hello" "!abc123"
    rfl rfl rfl rfl rfl rfl

/-- Claim C3, counterexample: a link loss in the `Connected` state does
not move the connection lifecycle to `Connecting` — the module registers
no connection-lost handler and has no retry loop. -/
theorem c3_counterexample :
    meshStep .connected .linkLoss ≠ .connecting := by decide

/-- Claim C3 (corrected): after a link loss while `Connected` the bridge
takes no action and its lifecycle state is unchanged; from `Connected`
no event can reach `Connecting`, so no reconnect attempt ever happens
and recovery requires a process restart. -/
theorem c3_no_reconnect_loop :
    meshStep .connected .linkLoss = .connected ∧
    ∀ e, meshStep .connected e = .connected ∨
      meshStep .connected e = .closed := by
  refine ⟨rfl, ?_⟩
  intro e
  cases e <;> simp [meshStep]

/-- Claim C4: a text packet whose sender is found in the directory is
dispatched with callsign the upper-cased first whitespace token of the
sender's long name and with the decoded text unchanged. -/
theorem c4_found_sender_callsign (cb : String → String → Except PyError Unit)
    (p : Packet) (nodes : Directory) (ds : DecodedSection) (bs : Bytes)
    (text fid : String) (entry : String × NodeInfo) (u : User)
    (tok : String) (toks : List String)
    (hd : p.decoded = some ds)
    (hpn : ds.portnum = some "TEXT_MESSAGE_APP")
    (hpl : ds.payload = some bs)
    (hutf : utf8Decode bs = some text)
    (hfid : p.fromId = some fid)
    (hfind : nodes.find? (fun entry => fid == entry.1) = some entry)
    (huser : entry.2.user = some u)
    (hsplit : pySplit u.longName = tok :: toks)
    (hcb : cb (pyUpper tok) text = .ok ()) :
    onReceive cb p nodes = .ok (some ⟨pyUpper tok, text⟩) := by
  simp [onReceive, onReceiveTry, idToName, hd, hpn, hpl, hutf, hfid, hfind,
    huser, hsplit, hcb]

/-- Claim C4, witness: the spec's happy-path scenario. The packet
`{portnum: TEXT_MESSAGE_APP, payload: "Hello", fromId: "!abc123"}`
against a directory mapping `"!abc123"` to long name `"Alice Example"`
is dispatched as `{callsign: "ALICE", text: "Hello"}`. -/
theorem c4_witness :
    onReceive okCb happyPacket aliceDir = .ok (some ⟨"ALICE", "Hello"⟩) :=
  c4_found_sender_callsign okCb happyPacket aliceDir
    ⟨some "TEXT_MESSAGE_APP", some helloBytes⟩ helloBytes "Hello" "!abc123"
    ("!abc123", ⟨some ⟨"AE", "Alice Example"⟩⟩) ⟨"AE", "Alice Example"⟩
    "Alice" ["Example"] rfl rfl rfl rfl rfl rfl rfl rfl rfl

/-- Claim C5, counterexample: not every packet that fails decode makes
decode yield `None`. A text-tagged packet with a valid payload but no
sender id field fails decode by raising an uncaught `KeyError "fromId"`
instead of yielding the `None` result the claim states. -/
theorem c5_counterexample :
    onReceive okCb noFromIdPacket aliceDir = .error (.keyError "fromId") := rfl

/-- Claim C5 (corrected): no `RelayEvent` is ever constructed from a
packet that failed decode — a dispatched event implies the packet had a
text-tagged decoded section, a valid-UTF-8 payload and a sender id — and
on every failure path the result is independent of the dispatcher
callback, so the callback is never invoked. Guard-failing packets (no
decoded section, no port tag, or a non-text tag such as `POSITION_APP`)
and invalid-UTF-8 payloads yield `None`; but a text-tagged packet
missing its payload or its sender id field raises an uncaught `KeyError`
rather than yielding `None`. -/
theorem c5_failed_decode_no_dispatch (p : Packet) (nodes : Directory) :
    (p.decoded = none → ∀ cb, onReceive cb p nodes = .ok none) ∧
    (∀ ds, p.decoded = some ds → ds.portnum = none →
      ∀ cb, onReceive cb p nodes = .ok none) ∧
    (∀ ds pn, p.decoded = some ds → ds.portnum = some pn →
      pn ≠ "TEXT_MESSAGE_APP" → ∀ cb, onReceive cb p nodes = .ok none) ∧
    (∀ ds bs, p.decoded = some ds → ds.portnum = some "TEXT_MESSAGE_APP" →
      ds.payload = some bs → utf8Decode bs = none →
      ∀ cb, onReceive cb p nodes = .ok none) ∧
    (∀ ds, p.decoded = some ds → ds.portnum = some "TEXT_MESSAGE_APP" →
      ds.payload = none →
      ∀ cb, onReceive cb p nodes = .error (.keyError "payload")) ∧
    (∀ ds bs text, p.decoded = some ds →
      ds.portnum = some "TEXT_MESSAGE_APP" → ds.payload = some bs →
      utf8Decode bs = some text → p.fromId = none →
      ∀ cb, onReceive cb p nodes = .error (.keyError "fromId")) ∧
    (∀ cb ev, onReceive cb p nodes = .ok (some ev) →
      ∃ ds bs text fid, p.decoded = some ds ∧
        ds.portnum = some "TEXT_MESSAGE_APP" ∧ ds.payload = some bs ∧
        utf8Decode bs = some text ∧ p.fromId = some fid) := by
  refine ⟨?_, ?_, ?_, ?_, ?_, ?_, ?_⟩
  · intro hd cb; simp [onReceive, hd]
  · intro ds hd hpn cb; simp [onReceive, hd, hpn]
  · intro ds pn hd hpn hne cb; simp [onReceive, hd, hpn, hne]
  · intro ds bs hd hpn hpl hutf cb
    simp [onReceive, onReceiveTry, hd, hpn, hpl, hutf]
  · intro ds hd hpn hpl cb
    simp [onReceive, onReceiveTry, hd, hpn, hpl]
  · intro ds bs text hd hpn hpl hutf hfid cb
    simp [onReceive, onReceiveTry, hd, hpn, hpl, hutf, hfid]
  · intro cb ev h
    cases hd : p.decoded with
    | none => simp [onReceive, hd] at h
    | some ds =>
      cases hpn : ds.portnum with
      | none => simp [onReceive, hd, hpn] at h
      | some pn =>
        by_cases hp : pn = "TEXT_MESSAGE_APP"
        · subst hp
          cases hpl : ds.payload with
          | none => simp [onReceive, onReceiveTry, hd, hpn, hpl] at h
          | some bs =>
            cases hutf : utf8Decode bs with
            | none =>
              simp [onReceive, onReceiveTry, hd, hpn, hpl, hutf] at h
            | some text =>
              cases hfid : p.fromId with
              | none =>
                simp [onReceive, onReceiveTry, hd, hpn, hpl, hutf, hfid] at h
              | some fid => exact ⟨ds, bs, text, fid, rfl, hpn, hpl, hutf, rfl⟩
        · simp [onReceive, hd, hpn, hp] at h

/-- Claim C5, witness for the amended theorem: the spec's non-text
scenario, a `POSITION_APP` packet, yields `None` and is never
dispatched. -/
theorem c5_witness :
    onReceive okCb positionPacket aliceDir = .ok none :=
  (c5_failed_decode_no_dispatch positionPacket aliceDir).2.2.1
    ⟨some "POSITION_APP", some helloBytes⟩ "POSITION_APP" rfl rfl
    (by decide) okCb

/-- Claim C6, counterexample: an error raised by the downstream
chat-posting callback is not caught at the dispatch boundary. A callback
that raises makes the whole handler raise, because the `try` block is
guarded by `except UnicodeDecodeError` only. -/
theorem c6_counterexample :
    onReceive (fun _ _ => .error (.callbackError "boom")) happyPacket aliceDir
      = .error (.callbackError "boom") := rfl

/-- Claim C6 (corrected): on the dispatch path, a `UnicodeDecodeError`
raised by the downstream callback is the only exception that is caught
(the handler then returns normally with no successful dispatch); every
other callback exception propagates out of the handler into the mesh
event path. -/
theorem c6_callback_error_propagates
    (cb : String → String → Except PyError Unit)
    (p : Packet) (nodes : Directory) (ds : DecodedSection) (bs : Bytes)
    (text fid : String) (names : String × String)
    (tok : String) (toks : List String) (e : PyError)
    (hd : p.decoded = some ds)
    (hpn : ds.portnum = some "TEXT_MESSAGE_APP")
    (hpl : ds.payload = some bs)
    (hutf : utf8Decode bs = some text)
    (hfid : p.fromId = some fid)
    (hname : idToName nodes fid = .ok names)
    (hsplit : pySplit names.2 = tok :: toks)
    (hcb : cb (pyUpper tok) text = .error e) :
    (e ≠ .unicodeDecodeError → onReceive cb p nodes = .error e) ∧
    (e = .unicodeDecodeError → onReceive cb p nodes = .ok none) := by
  constructor
  · intro hne
    cases e <;>
      simp_all [onReceive, onReceiveTry, hd, hpn, hpl, hutf, hfid, hname,
        hsplit, hcb]
  · intro heq
    subst heq
    simp [onReceive, onReceiveTry, hd, hpn, hpl, hutf, hfid, hname,
      hsplit, hcb]

/-- Claim C6, witness for the amended theorem: a callback raising an
exception other than `UnicodeDecodeError` makes the handler raise that
same exception. -/
theorem c6_witness :
    onReceive (fun _ _ => .error (.callbackError "outage")) happyPacket
      aliceDir = .error (.callbackError "outage") :=
  (c6_callback_error_propagates
    (fun _ _ => .error (.callbackError "outage")) happyPacket aliceDir
    ⟨some "TEXT_MESSAGE_APP", some helloBytes⟩ helloBytes "Hello" "!abc123"
    ("AE", "Alice Example") "Alice" ["Example"] (.callbackError "outage")
    rfl rfl rfl rfl rfl rfl rfl rfl).1 (by decide)

/-- Claim C7: failure to establish the initial connection is fatal. Each
constructor logs and re-raises its connection error unchanged, `main`
catches only `KeyboardInterrupt`, so a failed mesh or chat connection
makes the process exit non-zero. -/
theorem c7_startup_failure_fatal (meshConn mmConn : ConnectResult)
    (msg : String) :
    meshInit (.fail msg) = .error msg ∧
    mattermostInit (.fail msg) = .error msg ∧
    (meshConn ≠ .ok ∨ mmConn ≠ .ok →
      (mainRun meshConn mmConn).exitCodeZero = false) := by
  refine ⟨rfl, rfl, ?_⟩
  intro h
  cases meshConn <;> cases mmConn <;>
    simp_all [mainRun, meshInit, mattermostInit]

/-- Claim C7, witness: a failed mesh connection at startup exits the
process with a non-zero status. -/
theorem c7_witness :
    (mainRun (.fail "boom") .ok).exitCodeZero = false :=
  (c7_startup_failure_fatal (.fail "boom") .ok "boom").2.2
    (Or.inl (by decide))

/-- Claim C8: the handler is pure with respect to the decode inputs. A
normal run of the handler leaves the node directory unchanged, so
running the decode step again on the same packet against the resulting
state yields the same outcome — the same dispatched event. -/
theorem c8_decode_idempotent (cb : String → String → Except PyError Unit)
    (p : Packet) (st st' : BridgeState)
    (h : handlePacket cb p st = .ok st') :
    st'.nodes = st.nodes ∧
    onReceive cb p st'.nodes = onReceive cb p st.nodes := by
  unfold handlePacket at h
  cases hr : onReceive cb p st.nodes with
  | error e => rw [hr] at h; exact absurd h (by simp)
  | ok o =>
    rw [hr] at h
    cases o with
    | none =>
      have : st' = st := by injection h with h'; exact h'.symm
      subst this; exact ⟨rfl, hr⟩
    | some ev =>
      have : st' = ⟨st.nodes, st.dispatched ++ [ev]⟩ := by
        injection h with h'; exact h'.symm
      subst this; exact ⟨rfl, hr⟩

/-- Claim C8, witness: one happy-path handler run appends exactly the
dispatched event, keeps the directory intact, and decoding again against
the new state agrees with the first decode. -/
theorem c8_witness :
    (⟨aliceDir, [⟨"ALICE", "Hello"⟩]⟩ : BridgeState).nodes = 
      (⟨aliceDir, []⟩ : BridgeState).nodes ∧
    onReceive okCb happyPacket
        (⟨aliceDir, [⟨"ALICE", "Hello"⟩]⟩ : BridgeState).nodes =
      onReceive okCb happyPacket (⟨aliceDir, []⟩ : BridgeState).nodes :=
  c8_decode_idempotent okCb happyPacket ⟨aliceDir, []⟩
    ⟨aliceDir, [⟨"ALICE", "Hello"⟩]⟩ rfl

/-- Claim C9: on interrupt-triggered shutdown, `main`'s `finally` block
closes every client that was successfully constructed: the mesh client
whenever its constructor returned, the chat client whenever both
constructors returned; on a full run both are closed and the process
exits cleanly. -/
theorem c9_shutdown_closes_clients (meshConn mmConn : ConnectResult) :
    (meshConn = .ok → (mainRun meshConn mmConn).meshClosed = true) ∧
    (meshConn = .ok → mmConn = .ok →
      (mainRun meshConn mmConn).mmClosed = true) ∧
    mainRun .ok .ok = ⟨true, true, true⟩ := by
  refine ⟨?_, ?_, rfl⟩
  · intro h
    subst h
    cases mmConn <;> simp [mainRun, meshInit, mattermostInit]
  · intro h1 h2
    subst h1; subst h2
    rfl

/-- Claim C9, witness: when both connections succeed and the run ends by
interrupt, both clients are closed. -/
theorem c9_witness :
    (mainRun .ok .ok).meshClosed = true ∧ (mainRun .ok .ok).mmClosed = true :=
  ⟨(c9_shutdown_closes_clients .ok .ok).1 rfl,
   (c9_shutdown_closes_clients .ok .ok).2.1 rfl rfl⟩

/-- Claim C10: a packet with no decoded section, or whose decoded
section has no port tag, is silently skipped: the handler returns
normally with no dispatch, for every dispatcher callback. -/
theorem c10_missing_section_skipped (p : Packet) (nodes : Directory)
    (h : p.decoded = none ∨ ∃ ds, p.decoded = some ds ∧ ds.portnum = none) :
    ∀ cb, onReceive cb p nodes = .ok none := by
  intro cb
  rcases h with hd | ⟨ds, hd, hpn⟩
  · simp [onReceive, hd]
  · simp [onReceive, hd, hpn]

/-- Claim C10, witness: a packet with no decoded section at all is
skipped without raising. -/
theorem c10_witness :
    onReceive okCb (⟨none, some "!abc123"⟩ : Packet) aliceDir = .ok none :=
  c10_missing_section_skipped ⟨none, some "!abc123"⟩ aliceDir
    (Or.inl rfl) okCb

end Bridge
